import Mathlib

/-!
Shallow embedding of the session-ingestion core of the visual-perception
repository (`behavior_python/core/session.py`), together with theorems
checking the specification's claims about it.

Modelling conventions:
  * Python attributes that may be unset are `Option` fields; reading an
    unset attribute is an `attributeError`.
  * Fallible Python code is embedded as `Except PyErr _`.
  * External collaborators (log-format adapters in `utils`, the stitching
    and extrapolation helpers, the Google-sheet lookup, the flat-file
    database) are parameters of the embedded functions, or are modelled
    from the spec where the file says so.
  * Python `dict`s are association lists with first-match lookup;
    `\x7b**a, **b\x7d` is `dictUnion a b`.
-/

namespace VisualPerception

/-- A Python scalar value as it appears in rows and spreadsheet cells. -/
inductive PyVal where
  | str (s : String)
  | num (n : Int)
  | pynone
  deriving Repr, DecidableEq

/-- The Python exceptions the embedded code can raise. -/
inductive PyErr where
  | nameError
  | attributeError
  | valueError
  | indexError
  | typeError
  | keyError
  | gsheetError
  | runtimeError (msg : String)
  | assertionError (msg : String)
  | logParseError (msg : String)
  deriving Repr, DecidableEq

/-- First-match lookup in an association list (Python `dict` access). -/
def dictLookup {α : Type} (d : List (String × α)) (k : String) : Option α :=
  (d.find? (fun p => p.1 == k)).map Prod.snd

/-- Python `\x7b**a, **b\x7d`: keys of `a` in order with `b`'s value where the key
is also in `b`, followed by the keys only in `b`. `b` takes precedence. -/
def dictUnion {α : Type} (a b : List (String × α)) : List (String × α) :=
  a.map (fun p => (p.1, (dictLookup b p.1).getD p.2)) ++
    b.filter (fun p => (dictLookup a p.1).isNone)

/-- First-of-two-options choice, used to state which side of a dict merge
wins a key collision. -/
def overlay_get {α : Type} (primary fallback : Option α) : Option α :=
  match primary with
  | some v => some v
  | none => fallback

/-- Python negative-index-capable list access; `none` is an IndexError. -/
def py_index {α : Type} (l : List α) (i : Int) : Option α :=
  if 0 ≤ i then l.get? i.toNat
  else if (-i).toNat ≤ l.length then l.get? (l.length - (-i).toNat)
  else none

/-- Split a character list at every occurrence of `sep`, keeping empty
pieces, as Python `str.split(sep)` does. -/
def split_chars (sep : Char) : List Char → List (List Char)
  | [] => [[]]
  | c :: rest =>
    let r := split_chars sep rest
    if c == sep then [] :: r
    else
      match r with
      | [] => [[c]]
      | g :: gs => (c :: g) :: gs

/-- Python `s.split(sep)` for a one-character separator. -/
def py_split (s : String) (sep : Char) : List String :=
  (split_chars sep s.data).map String.mk

/-- Digits-only numeral value. -/
def digits_to_nat (cs : List Char) : Nat :=
  cs.foldl (fun acc c => acc * 10 + (c.toNat - ('0').toNat)) 0

/-- Parse a non-empty all-digit character list. -/
def chars_to_nat (cs : List Char) : Option Nat :=
  if cs ≠ [] && cs.all (·.isDigit) then some (digits_to_nat cs) else none

/-- Embeds `SessionMeta` (session.py lines 10-131): every attribute starts unset. -/
structure SessionMeta where
  prot_file : Option String := none
  opto : Option Bool := none
  level : Option String := none
  session_dir : Option String := none
  experiment_name : Option String := none
  animalid : Option String := none
  user : Option String := none
  baredate : Option String := none
  date : Option (Nat × Nat × Nat) := none
  nicedate : Option String := none
  time : Option String := none
  weight : Option (Option PyVal) := none
  water_consumed : Option (Option Int) := none
  session_id : Option String := none
  deriving Repr, DecidableEq

/-- Embeds `"".join([n for n in s if n.isdigit()])`. -/
def str_digits (s : String) : String :=
  String.mk (s.data.filter Char.isDigit)

/-- Embeds `SessionMeta.generate_session_id` (lines 125-131): the whole try block is
caught by a bare `except`, which re-raises a RuntimeError naming
`self.session_dir`; if `session_dir` is itself unset the f-string raises an
AttributeError instead. -/
def generate_session_id (m : SessionMeta) : Except PyErr SessionMeta :=
  let attempt : Option String := do
    let animalid ← m.animalid
    let baredate ← m.baredate
    let time ← m.time
    pure (baredate ++ time ++ str_digits animalid)
  match attempt with
  | some sid => .ok { m with session_id := some sid }
  | none =>
    match m.session_dir with
    | some d => .error (.runtimeError ("Failed to create session id for " ++ d))
    | none => .error .attributeError

/-- Zero-pad a number to two digits. -/
def pad2 (n : Nat) : String :=
  if n < 10 then "0" ++ toString n else toString n

/-- Embeds `dt.fromtimestamp(epoch).strftime("%H%M")`, with the local clock modelled
as UTC (the formatting itself is what the claims depend on). -/
def fmt_hhmm (epoch : Nat) : String :=
  pad2 (epoch / 3600 % 24) ++ pad2 (epoch / 60 % 60)

def is_leap (y : Nat) : Bool :=
  (y % 4 == 0 && y % 100 != 0) || y % 400 == 0

/-- strptime's `%y` pivot: 00-68 map to 2000-2068, 69-99 to 1969-1999. -/
def yy_to_year (yy : Nat) : Nat :=
  if yy ≤ 68 then 2000 + yy else 1900 + yy

def days_in_month (y m : Nat) : Nat :=
  if m == 2 then (if is_leap y then 29 else 28)
  else if m == 4 || m == 6 || m == 9 || m == 11 then 30
  else 31

/-- Embeds `dt.strptime(s, "%y%m%d")`: six digits forming a valid calendar date;
`none` is a ValueError. -/
def parse_yymmdd (s : String) : Option (Nat × Nat × Nat) :=
  if s.data.length == 6 && s.data.all (·.isDigit) then
    let yy := digits_to_nat (s.data.take 2)
    let mm := digits_to_nat ((s.data.drop 2).take 2)
    let dd := digits_to_nat (s.data.drop 4)
    if 1 ≤ mm && mm ≤ 12 && 1 ≤ dd && dd ≤ days_in_month (yy_to_year yy) mm then
      some (yy, mm, dd)
    else none
  else none

def month_abbrev (m : Nat) : String :=
  (["Jan", "Feb", "Mar", "Apr", "May", "Jun",
    "Jul", "Aug", "Sep", "Oct", "Nov", "Dec"]).getD (m - 1) ""

/-- Embeds `dt.strftime(date, "%d %b %y")`. -/
def fmt_nicedate (d : Nat × Nat × Nat) : String :=
  pad2 d.2.2 ++ " " ++ month_abbrev d.2.1 ++ " " ++ pad2 d.1

/-- Embeds `SessionMeta.set_date` (lines 94-104). `st_birthtime`/`st_ctime` stand for
the `os.stat` results on `self.prot_file`. `create_epoch` is assigned only in
the `darwin` and `win32` branches; on any other platform the later read of it
is an unbound local, i.e. a NameError. -/
def set_date (platform : String) (st_birthtime st_ctime : Nat)
    (date_str : String) (m : SessionMeta) : Except PyErr SessionMeta :=
  let m1 := { m with baredate := some date_str }
  match parse_yymmdd date_str with
  | none => .error .valueError
  | some d =>
    let m2 := { m1 with date := some d, nicedate := some (fmt_nicedate d) }
    match m2.prot_file with
    | none => .error .attributeError
    | some _ =>
      let create_epoch : Option Nat :=
        if platform == "darwin" then some st_birthtime
        else if platform == "win32" then some st_ctime
        else none
      match create_epoch with
      | some e => .ok { m2 with time := some (fmt_hhmm e) }
      | none => .error .nameError

/-- One row of the Google-sheet lookup after filtering by
`(Mouse ID, Date [YYMMDD])`: the two columns the code reads. -/
structure GRow where
  weight : PyVal
  rig_water : PyVal
  deriving Repr, DecidableEq

/-- Python `int(s)` on a string: optional sign followed by digits. -/
def str_to_int (s : String) : Option Int :=
  match s.data with
  | [] => none
  | c :: cs =>
    if c == '-' then (chars_to_nat cs).map (fun n => -(Int.ofNat n))
    else (chars_to_nat (c :: cs)).map Int.ofNat

/-- Python `int(v)` on a cell value. -/
def py_int (v : PyVal) : Except PyErr Int :=
  match v with
  | .num n => .ok n
  | .str s =>
    match str_to_int s with
    | some n => .ok n
    | none => .error .valueError
  | .pynone => .error .typeError

/-- Embeds `SessionMeta.set_weight_and_water` (lines 106-123). `sheet` is the outcome
of the external `GSheet` query pipeline for `(animalid, baredate)`:
`.error` means the service call raised, `.ok none` an empty filtered frame,
`.ok (some row)` a matching row. Only the `int(...)` water coercion is inside
a try/except in the source; everything else propagates. -/
def set_weight_and_water (sheet : Except Unit (Option GRow)) (skip_google : Bool)
    (m : SessionMeta) : Except PyErr SessionMeta :=
  let m1 := { m with weight := some none, water_consumed := some none }
  if skip_google then .ok m1
  else
    match sheet with
    | .error _ => .error .gsheetError
    | .ok res =>
      match m1.animalid, m1.baredate with
      | some _, some baredate =>
        match str_to_int baredate with
        | none => .error .valueError
        | some _ =>
          match res with
          | none => .ok m1
          | some row =>
            let m2 := { m1 with weight := some (some row.weight) }
            match py_int row.rig_water with
            | .ok n => .ok { m2 with water_consumed := some (some n) }
            | .error _ => .ok { m2 with water_consumed := some none }
      | _, _ => .error .attributeError

/-- The tail of `SessionMeta.init_from_prot` (lines 73-81): identity
derivation from the protocol-file path, then `set_date`,
`set_weight_and_water` and `generate_session_id`, each error propagating.
`os.sep` is modelled as `/`. -/
def init_from_prot_tail (platform : String) (st_birthtime st_ctime : Nat)
    (sheet : Except Unit (Option GRow)) (skip_google : Bool)
    (m : SessionMeta) : Except PyErr SessionMeta :=
  match m.prot_file with
  | none => .error .attributeError
  | some prot_file =>
    let parts := py_split prot_file '/'
    match py_index parts (-2) with
    | none => .error .indexError
    | some session_dir =>
      let experiment_name := (py_split (parts.getLastD "") '.').headD ""
      let m1 := { m with session_dir := some session_dir,
                         experiment_name := some experiment_name }
      let tokens := py_split session_dir '_'
      match tokens.get? 1 with
      | none => .error .indexError
      | some animalid =>
        let user := tokens.getLastD ""
        let m2 := { m1 with animalid := some animalid, user := some user }
        let date_tok := (py_split ((py_split session_dir '/').getLastD "") '_').headD ""
        match set_date platform st_birthtime st_ctime date_tok m2 with
        | .error e => .error e
        | .ok m3 =>
          match set_weight_and_water sheet skip_google m3 with
          | .error e => .error e
          | .ok m4 => generate_session_id m4

/-- A path argument as Python passes it: a scalar string or a list. -/
inductive PathArg where
  | scalar (p : String)
  | list (ps : List String)
  deriving Repr, DecidableEq

/-- An event-channel table: Python dict from channel name to samples. -/
abbrev LogData (α : Type) := List (String × α)

/-- An external log-format adapter (`parseStimpyLog`,
`parseStimpyGithubLog` from `utils`): path argument to
`(records, comments)`, or a raised exception. -/
abbrev LogAdapter (α : Type) := PathArg → Except PyErr (LogData α × List String)

/-- Lines 237-241 and 251-254: try the primary adapter; on any exception
fall back to the secondary; a failure of the secondary propagates. -/
def parse_with_fallback {α : Type} (pS pG : LogAdapter α) (path : PathArg) :
    Except PyErr (LogData α × List String) :=
  match pS path with
  | .ok r => .ok r
  | .error _ => pG path

/-- The loop of lines 232-246: per run, parse the stimlog with fallback and
the riglog with `parseStimpyLog` only, collecting records per run and
extending the two comment lists. The mixed-length case is unreachable
because the caller asserts equal lengths first. -/
def parse_pairs {α : Type} (pS pG : LogAdapter α) :
    List String → List String →
    Except PyErr (List (LogData α) × List (LogData α) × List String × List String)
  | [], _ => .ok ([], [], [], [])
  | _ :: _, [] => .ok ([], [], [], [])
  | s :: ss, r :: rs =>
    match parse_with_fallback pS pG (.scalar s) with
    | .error e => .error e
    | .ok (sd, sc) =>
      match pS (.scalar r) with
      | .error e => .error e
      | .ok (rd, rc) =>
        match parse_pairs pS pG ss rs with
        | .error e => .error e
        | .ok (sds, rds, scs, rcs) =>
          .ok (sd :: sds, rd :: rds, sc ++ scs, rc ++ rcs)

/-- The else-branch of `read_combine_logs` (lines 250-259): parse the single
stimlog with fallback and the single riglog with the stable adapter, then
merge. -/
def combine_scalar {α : Type} (pS pG : LogAdapter α) (sps rps : PathArg) :
    Except PyErr (LogData α × List String) :=
  match parse_with_fallback pS pG sps with
  | .error e => .error e
  | .ok (sd, sc) =>
    match pS rps with
    | .error e => .error e
    | .ok (rd, rc) => .ok (dictUnion sd rd, sc ++ rc)

/-- Embeds `Session.read_combine_logs` (lines 222-259). `stitchLogs` is the
external stitcher from `utils` (its Bool is the `isStimlog` flag). The
final merge `\x7b**stim_data, **rig_data\x7d` / `stim_comments + rig_comments`
(lines 257-259) is common to both branches; the Python else-branch (not
both arguments are lists) is split over the two `combine_scalar` arms. -/
def read_combine_logs {α : Type} (pS pG : LogAdapter α)
    (stitchLogs : Bool → List (LogData α) → LogData α)
    (stimlog_paths riglog_paths : PathArg) :
    Except PyErr (LogData α × List String) :=
  match stimlog_paths, riglog_paths with
  | .list sps, .list rps =>
    if sps.length == rps.length then
      match parse_pairs pS pG sps rps with
      | .error e => .error e
      | .ok (sds, rds, scs, rcs) =>
        .ok (dictUnion (stitchLogs true sds) (stitchLogs false rds), scs ++ rcs)
    else
      .error (.assertionError
        ("The number stimlog files need to be equal to amount of riglog files "
          ++ toString sps.length ++ "=/=" ++ toString rps.length))
  | .scalar sp, rps => combine_scalar pS pG (.scalar sp) rps
  | .list sps, .scalar rp => combine_scalar pS pG (.list sps) (.scalar rp)

/-- One run directory's log pair (`self.data_paths.runPaths` entries). -/
structure RunPath where
  stimlog : PathArg
  riglog : PathArg
  deriving Repr, DecidableEq

/-- The `DataPaths` attributes the embedded `Session` methods read (the
class itself lives in `core.py`, outside the analyzed sources; fields are
taken at the interface the claims use). -/
structure DataPaths where
  runPaths : List RunPath
  stimlog : PathArg
  riglog : PathArg
  savePath : String
  dataPaths : List String
  deriving Repr, DecidableEq

/-- The multiple-run loop of `Session.read_data` (lines 269-276):
per run, combine the logs then extrapolate time, appending the table and
the run's comments. `extrapolate_time` is the external helper from
`utils`. -/
def read_runs {α : Type} (pS pG : LogAdapter α)
    (stitchLogs : Bool → List (LogData α) → LogData α)
    (extrapolate_time : LogData α → LogData α) :
    List RunPath → Except PyErr (List (LogData α) × List (List String))
  | [] => .ok ([], [])
  | r :: rest =>
    match read_combine_logs pS pG stitchLogs r.stimlog r.riglog with
    | .error e => .error e
    | .ok (rawdata, comments) =>
      match read_runs pS pG stitchLogs extrapolate_time rest with
      | .error e => .error e
      | .ok (rs, cs) => .ok (extrapolate_time rawdata :: rs, comments :: cs)

/-- Embeds `Session.read_data` (lines 262-284), stimpy branch (`self.logversion`
is fixed to `"stimpy"` in `__init__`). Returns `none` when neither branch
fires (zero run paths: `self.rawdata` is never assigned). -/
def read_data {α : Type} (pS pG : LogAdapter α)
    (stitchLogs : Bool → List (LogData α) → LogData α)
    (extrapolate_time : LogData α → LogData α) (dp : DataPaths) :
    Except PyErr (Option (List (LogData α) × List (List String))) :=
  if 1 < dp.runPaths.length then
    match read_runs pS pG stitchLogs extrapolate_time dp.runPaths with
    | .error e => .error e
    | .ok res => .ok (some res)
  else if dp.runPaths.length == 1 then
    match read_combine_logs pS pG stitchLogs dp.stimlog dp.riglog with
    | .error e => .error e
    | .ok (rawdata, comments) =>
      .ok (some ([extrapolate_time rawdata], [comments]))
  else .ok none

/-- The per-file loop of `Session.isSaved` (lines 302-312): the running
conjunction `loadable = loadable and tmp_loadable` starting from `true`,
together with the diagnostics emitted in order. -/
def isSaved_loop (fs : List String) (savePath : String) :
    List String → Bool × List String
  | [] => (true, [])
  | r :: rest =>
    let tmp_loadable := fs.contains r
    let msg := if tmp_loadable then "Found saved data: " ++ r
               else savePath ++ " exists but no data file is present..."
    (tmp_loadable && (isSaved_loop fs savePath rest).1,
     msg :: (isSaved_loop fs savePath rest).2)

/-- Embeds `Session.isSaved` (lines 296-315). `fs` is the set of paths that exist
on disk; the second component is the list of diagnostics emitted. -/
def isSaved (fs : List String) (dp : DataPaths) : Bool × List String :=
  if fs.contains dp.savePath then
    isSaved_loop fs dp.savePath dp.dataPaths
  else
    (false, ["THIS SHOULD NOT HAPPEN"])

/-- A database row: column name to value. -/
abbrev Row := List (String × PyVal)

/-- Modelled from the spec: the flat-file database (`dbinterface`, outside
the analyzed sources) holds tables of rows; the core touches `sessions`
(keyed by `sessionId`) and `animals` (keyed by `id`). -/
structure DataBase where
  sessions : List Row
  animals : List Row
  deriving Repr, DecidableEq

/-- Modelled from the spec: a row satisfies a filter when every filter
column matches the row's value for that column. -/
def row_matches (row filt : Row) : Bool :=
  filt.all (fun kv => dictLookup row kv.1 == some kv.2)

/-- Modelled from the spec: `get_entries(filter, table)`. -/
def db_get_entries (t : List Row) (filt : Row) : List Row :=
  t.filter (row_matches · filt)

/-- Modelled from the spec: `exists(filter, table)`. -/
def db_row_exists (t : List Row) (filt : Row) : Bool :=
  t.any (row_matches · filt)

/-- Modelled from the spec: `add_entry(row, table)` appends a row. -/
def db_add_entry (t : List Row) (row : Row) : List Row :=
  t ++ [row]

/-- Modelled from the spec: `update_entry(filter, patch, table)` patches
every matching row in place, the patch's columns overwriting the row's. -/
def db_update_entry (t : List Row) (filt patch : Row) : List Row :=
  t.map (fun r => if row_matches r filt then dictUnion r patch else r)

/-- The `Session` attributes read by `save_to_db` and
`overall_session_no`. `current_session_no` is `none` when the attribute
was never assigned; no method of `Session` in the source assigns it. -/
structure SessionState where
  session_id : String
  animalid : String
  current_session_no : Option Int
  deriving Repr, DecidableEq

/-- Embeds `Session.overall_session_no` (lines 197-209): reads the animal's
counter (0 when the animal has no row) and returns it incremented,
storing nothing. -/
def overall_session_no (db : DataBase) (animalid : String) : Except PyErr Int :=
  match db_get_entries db.animals [("id", .str animalid)] with
  | [] => .ok (0 + 1)
  | r :: _ =>
    match dictLookup r "nSessions" with
    | some (.num lastn) => .ok (lastn + 1)
    | some _ => .error .typeError
    | none => .error .keyError

/-- Embeds `Session.save_to_db` (lines 317-334). In the fresh-insert branch the
`add_entry` call completes before `self.current_session_no` is read, so an
unset attribute raises only after the insert; the returned database holds
every mutation made before the raise. -/
def save_to_db (s : SessionState) (db : DataBase) (db_dict : Row) :
    Except PyErr Unit × DataBase :=
  if !db_row_exists db.sessions [("sessionId", .str s.session_id)] then
    let db1 := { db with sessions := db_add_entry db.sessions db_dict }
    match s.current_session_no with
    | some n =>
      (.ok (), { db1 with
        animals := db_update_entry db1.animals
          [("id", .str s.animalid)] [("nSessions", .num n)] })
    | none => (.error .attributeError, db1)
  else
    (.ok (), { db with
      sessions := db_update_entry db.sessions
        [("sessionId", .str s.session_id)] db_dict })

/-- A concrete primary stimpy adapter, used to exercise the theorems. -/
def adapterA : LogAdapter Nat := fun p =>
  match p with
  | .scalar "s_good" => .ok ([("screen", 1), ("vstim", 2)], ["stim comment"])
  | .scalar "r_good" => .ok ([("screen", 10), ("wheel", 3)], ["rig comment"])
  | _ => .error (.logParseError "not stimpy format")

/-- A concrete secondary (github-format) adapter. -/
def adapterB : LogAdapter Nat := fun p =>
  match p with
  | .scalar "s_github" => .ok ([("vstim", 5)], ["github comment"])
  | _ => .error (.logParseError "not github format")

/-- A concrete stitcher: concatenate the per-run channel tables. -/
def stitch0 : Bool → List (LogData Nat) → LogData Nat := fun _ ls => ls.flatten

/-- A concrete time extrapolation: shift every sample by 100. -/
def extrap0 : LogData Nat → LogData Nat := fun d => d.map (fun p => (p.1, p.2 + 100))

/-- A concrete two-run `DataPaths`. -/
def dp2 : DataPaths :=
  { runPaths := [⟨.scalar "s_good", .scalar "r_good"⟩,
                 ⟨.scalar "s_github", .scalar "r_good"⟩],
    stimlog := .scalar "s_good", riglog := .scalar "r_good",
    savePath := "savedir", dataPaths := [] }

/-- A concrete single-run `DataPaths`. -/
def dp1 : DataPaths :=
  { runPaths := [⟨.scalar "s_good", .scalar "r_good"⟩],
    stimlog := .scalar "s_good", riglog := .scalar "r_good",
    savePath := "savedir", dataPaths := [] }

/-- A concrete session state with the session counter attribute set. -/
def sess0 : SessionState :=
  { session_id := "2306151200045", animalid := "KC045", current_session_no := some 5 }

/-- A concrete session state whose counter attribute was never assigned. -/
def sessUnset : SessionState :=
  { session_id := "2306151200045", animalid := "KC045", current_session_no := none }

/-- A concrete database with one animal row and no session rows. -/
def db0 : DataBase :=
  { sessions := [], animals := [[("id", .str "KC045"), ("nSessions", .num 4)]] }

/-- A first session payload. -/
def payload1 : Row :=
  [("sessionId", .str "2306151200045"), ("nTrials", .num 100)]

/-- A second, different payload for the same session id. -/
def payload2 : Row :=
  [("sessionId", .str "2306151200045"), ("nTrials", .num 250)]

example : str_digits "KC045" = "045" := by rfl
example : fmt_hhmm 43200 = "1200" := by rfl
example : parse_yymmdd "230615" = some (23, 6, 15) := by rfl
example :
    (init_from_prot_tail "darwin" 43200 0 (.ok none) true
      { prot_file := some "presentation/230615_ABC_detect_AB/detect_level3.txt" }).map
        (·.session_id) = .ok (some "2306151200") := by rfl

/-! ### Helper lemmas about the dictionary model and the loops -/

theorem dictLookup_nil {α : Type} (k : String) : dictLookup ([] : List (String × α)) k = none := rfl

theorem dictLookup_cons {α : Type} (p : String × α) (t : List (String × α)) (k : String) :
    dictLookup (p :: t) k = if p.1 == k then some p.2 else dictLookup t k := by
  cases h : p.1 == k <;> simp [dictLookup, List.find?, h]

theorem dictLookup_append {α : Type} (x y : List (String × α)) (k : String) :
    dictLookup (x ++ y) k =
      match dictLookup x k with
      | some v => some v
      | none => dictLookup y k := by
  induction x with
  | nil => simp [dictLookup_nil]
  | cons p t ih =>
    rw [List.cons_append, dictLookup_cons, dictLookup_cons]
    cases h : p.1 == k <;> simp [h, ih]

theorem dictLookup_map_overlay {α : Type} (a b : List (String × α)) (k : String) :
    dictLookup (a.map (fun p => (p.1, (dictLookup b p.1).getD p.2))) k =
      (dictLookup a k).map (fun v => (dictLookup b k).getD v) := by
  induction a with
  | nil => simp [dictLookup_nil]
  | cons p t ih =>
    rw [List.map_cons, dictLookup_cons, dictLookup_cons]
    cases h : p.1 == k
    · simp [h, ih]
    · have hk : p.1 = k := by simpa using h
      simp [h, hk]

theorem dictLookup_filter_none {α : Type} (a b : List (String × α)) (k : String) :
    dictLookup (b.filter (fun p => (dictLookup a p.1).isNone)) k =
      if (dictLookup a k).isNone then dictLookup b k else none := by
  induction b with
  | nil => simp [dictLookup_nil]
  | cons q t ih =>
    cases hqk : q.1 == k
    · cases hq : (dictLookup a q.1).isNone <;>
        simp [List.filter_cons, hq, dictLookup_cons, hqk, ih]
    · have heq : q.1 = k := by simpa using hqk
      subst heq
      cases hq : (dictLookup a q.1).isNone <;>
        simp [List.filter_cons, hq, dictLookup_cons, ih]

/-- The Python-dict overlay law: in `\x7b**a, **b\x7d`, `b`'s entries take
precedence and `a`'s remaining entries show through. -/
theorem dictUnion_lookup {α : Type} (a b : List (String × α)) (k : String) :
    dictLookup (dictUnion a b) k =
      overlay_get (dictLookup b k) (dictLookup a k) := by
  rw [dictUnion, dictLookup_append, dictLookup_map_overlay, dictLookup_filter_none]
  cases ha : dictLookup a k <;> cases hb : dictLookup b k <;>
    simp [ha, hb, overlay_get]

/-! ### Claim theorems -/

/-- C1 (counterexample): a `SessionMeta` whose protocol file sits in session
directory `230615_ABC_detect_AB` — so its animal id `ABC` contains no digit —
completes initialization with `session_id = "2306151200"` (bare date and
time with nothing appended) instead of raising a fatal error, contradicting
the claim that a digitless animal id fails loudly. -/
theorem generate_session_id_silent_on_digitless :
    ((init_from_prot_tail "darwin" 43200 0 (.ok none) true
        { prot_file := some "presentation/230615_ABC_detect_AB/detect_level3.txt" }).map
      (fun m => (m.animalid, m.session_id)) = .ok (some "ABC", some "2306151200"))
    ∧ str_digits "ABC" = "" :=
  ⟨rfl, rfl⟩

/-- C1 (amended): `generate_session_id` sets `session_id` to
baredate ++ time ++ digits-of-animalid whenever `animalid`, `baredate` and
`time` are all set — even when the animal id contributes no digits — and
raises a RuntimeError naming the session directory exactly when one of
those precondition fields is missing. -/
theorem generate_session_id_amended (m : SessionMeta) :
    (∀ a b t, m.animalid = some a → m.baredate = some b → m.time = some t →
      generate_session_id m = .ok { m with session_id := some (b ++ t ++ str_digits a) })
    ∧ ((m.animalid = none ∨ m.baredate = none ∨ m.time = none) →
      ∀ d, m.session_dir = some d →
        generate_session_id m =
          .error (.runtimeError ("Failed to create session id for " ++ d))) := by
  constructor
  · intro a b t ha hb ht
    simp [generate_session_id, ha, hb, ht]
  · rintro (h | h | h) d hd
    · simp [generate_session_id, h, hd]
    · cases ham : m.animalid <;> simp [generate_session_id, h, hd, ham]
    · cases ham : m.animalid <;> cases hbm : m.baredate <;>
        simp [generate_session_id, h, hd, ham, hbm]

/-- C1 (witness): both branches of the amended claim at concrete inputs. -/
theorem generate_session_id_amended_witness :
    generate_session_id
        { animalid := some "KC045", baredate := some "230615", time := some "1200" } =
      .ok { animalid := some "KC045", baredate := some "230615", time := some "1200",
            session_id := some ("230615" ++ "1200" ++ str_digits "KC045") }
    ∧ generate_session_id { session_dir := some "230615_ABC_detect_AB" } =
      .error (.runtimeError ("Failed to create session id for " ++ "230615_ABC_detect_AB")) :=
  ⟨(generate_session_id_amended _).1 "KC045" "230615" "1200" rfl rfl rfl,
   (generate_session_id_amended _).2 (Or.inl rfl) _ rfl⟩

/-- C2 (counterexample): when the external spreadsheet lookup itself raises,
`set_weight_and_water` propagates the exception to its caller instead of
leaving the fields `None` — nothing in the source wraps the `GSheet` call in
a try/except. -/
theorem set_weight_and_water_propagates :
    set_weight_and_water (.error ()) false
      { animalid := some "KC045", baredate := some "230615" } = .error .gsheetError :=
  rfl

/-- C2 (amended): with the animal id and bare date set, an empty lookup
result leaves `weight` and `water_consumed` as `None` without an exception,
a failing numeric coercion of the water field leaves `water_consumed` as
`None` while keeping the looked-up weight, but an exception raised by the
external lookup itself propagates to the caller. -/
theorem set_weight_and_water_amended (m : SessionMeta) (a b : String) (row : GRow)
    (ha : m.animalid = some a) (hb : m.baredate = some b)
    (hi : (str_to_int b).isSome) :
    (set_weight_and_water (.ok none) false m =
      .ok { m with weight := some none, water_consumed := some none })
    ∧ (∀ e, py_int row.rig_water = .error e →
        set_weight_and_water (.ok (some row)) false m =
          .ok { m with weight := some (some row.weight), water_consumed := some none })
    ∧ (∀ u : Unit, set_weight_and_water (.error u) false m = .error .gsheetError) := by
  obtain ⟨nb, hnb⟩ := Option.isSome_iff_exists.mp hi
  refine ⟨?_, ?_, ?_⟩
  · simp [set_weight_and_water, ha, hb, hnb]
  · intro e he
    simp [set_weight_and_water, ha, hb, hnb, he]
  · intro u
    simp [set_weight_and_water]

/-- C2 (witness): the two recovered branches of the amended claim at
concrete inputs (water cell `"n/a"` fails `int` coercion). -/
theorem set_weight_and_water_amended_witness :
    (set_weight_and_water (.ok none) false
        { animalid := some "KC045", baredate := some "230615" } =
      .ok { animalid := some "KC045", baredate := some "230615",
            weight := some none, water_consumed := some none })
    ∧ (set_weight_and_water (.ok (some ⟨.num 23, .str "n/a"⟩)) false
        { animalid := some "KC045", baredate := some "230615" } =
      .ok { animalid := some "KC045", baredate := some "230615",
            weight := some (some (.num 23)), water_consumed := some none }) :=
  ⟨(set_weight_and_water_amended _ "KC045" "230615" ⟨.num 23, .str "n/a"⟩
      rfl rfl (by rfl)).1,
   (set_weight_and_water_amended _ "KC045" "230615" ⟨.num 23, .str "n/a"⟩
      rfl rfl (by rfl)).2.1 .valueError rfl⟩

/-- C7: the merge in `read_combine_logs` is the plain dictionary overlay
`\x7b**stim_data, **rig_data\x7d` with comments `stim_comments + rig_comments`:
in the scalar branch the result is exactly `dictUnion` of the
fallback-parsed stimlog table under the riglog table with stimlog comments
first, in the list branch exactly `dictUnion` of the stitched stimlog
tables under the stitched riglog tables with all stimlog comments first;
and looking up any channel in the overlay yields the riglog entry when the
name collides, the stimlog entry otherwise. -/
theorem read_combine_logs_overlay {α : Type} (pS pG : LogAdapter α)
    (st : Bool → List (LogData α) → LogData α) :
    (∀ (sp rp : String) (sd : LogData α) sc rd rc,
      parse_with_fallback pS pG (.scalar sp) = .ok (sd, sc) →
      pS (.scalar rp) = .ok (rd, rc) →
      read_combine_logs pS pG st (.scalar sp) (.scalar rp) =
        .ok (dictUnion sd rd, sc ++ rc))
    ∧ (∀ (ss rs : List String) sds rds scs rcs,
      ss.length = rs.length →
      parse_pairs pS pG ss rs = .ok (sds, rds, scs, rcs) →
      read_combine_logs pS pG st (.list ss) (.list rs) =
        .ok (dictUnion (st true sds) (st false rds), scs ++ rcs))
    ∧ (∀ (sd rd : LogData α) (k : String),
      dictLookup (dictUnion sd rd) k =
        overlay_get (dictLookup rd k) (dictLookup sd k)) := by
  refine ⟨?_, ?_, ?_⟩
  · intro sp rp sd sc rd rc hf hr
    simp [read_combine_logs, combine_scalar, hf, hr]
  · intro ss rs sds rds scs rcs hlen hpp
    have h' : (ss.length == rs.length) = true := by simpa using hlen
    simp [read_combine_logs, h', hpp]
  · intro sd rd k
    exact dictUnion_lookup sd rd k

/-- C7 (witness): all three conjuncts at concrete data. In the scalar
branch the merged table is the overlay of the adapter outputs with stimlog
comments first; in the list branch the same holds through the stitcher;
and the shared channel `screen` resolves to the riglog side. -/
theorem read_combine_logs_overlay_witness :
    read_combine_logs adapterA adapterB stitch0 (.scalar "s_good") (.scalar "r_good") =
      .ok (dictUnion [("screen", 1), ("vstim", 2)] [("screen", 10), ("wheel", 3)],
           ["stim comment"] ++ ["rig comment"])
    ∧ read_combine_logs adapterA adapterB stitch0 (.list ["s_github"]) (.list ["r_good"]) =
      .ok (dictUnion (stitch0 true [[("vstim", 5)]])
             (stitch0 false [[("screen", 10), ("wheel", 3)]]),
           ["github comment"] ++ ["rig comment"])
    ∧ dictLookup (dictUnion [("screen", 1), ("vstim", 2)] [("screen", 10), ("wheel", 3)]) "screen" =
        overlay_get (dictLookup ([("screen", 10), ("wheel", 3)] : LogData Nat) "screen")
          (dictLookup ([("screen", 1), ("vstim", 2)] : LogData Nat) "screen") :=
  ⟨(read_combine_logs_overlay adapterA adapterB stitch0).1 "s_good" "r_good"
      [("screen", 1), ("vstim", 2)] ["stim comment"]
      [("screen", 10), ("wheel", 3)] ["rig comment"] rfl rfl,
   (read_combine_logs_overlay adapterA adapterB stitch0).2.1 ["s_github"] ["r_good"]
      [[("vstim", 5)]] [[("screen", 10), ("wheel", 3)]]
      ["github comment"] ["rig comment"] rfl rfl,
   (read_combine_logs_overlay adapterA adapterB stitch0).2.2
      [("screen", 1), ("vstim", 2)] [("screen", 10), ("wheel", 3)] "screen"⟩

/-- C6: in the stimpy branch of `read_data`, more than one run dispatches to
the per-run loop and exactly one run reads the session-level stimlog/riglog
pair once, extrapolates once, and wraps the result in a one-element list;
the loop yields one extrapolated table and one comment list per run, each
run read and combined independently via `read_combine_logs`. -/
theorem read_data_list_shaped {α : Type} (pS pG : LogAdapter α)
    (st : Bool → List (LogData α) → LogData α)
    (ext : LogData α → LogData α) (dp : DataPaths) :
    (1 < dp.runPaths.length →
      read_data pS pG st ext dp =
        match read_runs pS pG st ext dp.runPaths with
        | .error e => .error e
        | .ok res => .ok (some res))
    ∧ (dp.runPaths.length = 1 →
      read_data pS pG st ext dp =
        match read_combine_logs pS pG st dp.stimlog dp.riglog with
        | .error e => .error e
        | .ok (rawdata, comments) => .ok (some ([ext rawdata], [comments])))
    ∧ (∀ runs ts cs, read_runs pS pG st ext runs = .ok (ts, cs) →
        ts.length = runs.length ∧ cs.length = runs.length ∧
        ∀ (i : Nat) (r : RunPath), runs[i]? = some r → ∃ raw com,
          read_combine_logs pS pG st r.stimlog r.riglog = .ok (raw, com)
          ∧ ts[i]? = some (ext raw) ∧ cs[i]? = some com) := by
  refine ⟨?_, ?_, ?_⟩
  · intro h
    simp [read_data, h]
  · intro h
    have h2 : ¬ 1 < dp.runPaths.length := by omega
    simp [read_data, h, h2]
  · intro runs
    induction runs with
    | nil =>
      intro ts cs h
      rw [read_runs] at h
      injection h with h
      injection h with h1 h2
      refine ⟨by simp [← h1], by simp [← h2], ?_⟩
      intro i r hr
      simp at hr
    | cons r0 rest ih =>
      intro ts cs h
      rw [read_runs] at h
      cases hc : read_combine_logs pS pG st r0.stimlog r0.riglog with
      | error e => rw [hc] at h; cases h
      | ok v =>
        obtain ⟨rawdata, comments⟩ := v
        rw [hc] at h
        cases hrest : read_runs pS pG st ext rest with
        | error e => rw [hrest] at h; cases h
        | ok w =>
          obtain ⟨rs, cs'⟩ := w
          rw [hrest] at h
          injection h with h
          injection h with h1 h2
          obtain ⟨hl1, hl2, hidx⟩ := ih rs cs' hrest
          refine ⟨by simp [← h1, hl1], by simp [← h2, hl2], ?_⟩
          intro i rr hr
          cases i with
          | zero =>
            simp at hr
            subst hr
            exact ⟨rawdata, comments, hc, by simp [← h1], by simp [← h2]⟩
          | succ j =>
            simp at hr
            obtain ⟨raw, com, hcj, ht, hcs⟩ := hidx j rr hr
            exact ⟨raw, com, hcj, by simp [← h1, ht], by simp [← h2, hcs]⟩

/-- C6 (witness): a two-run session yields a two-element list of per-run
extrapolated tables, a one-run session a one-element list. -/
theorem read_data_list_shaped_witness :
    read_data adapterA adapterB stitch0 extrap0 dp2 =
      .ok (some ([[("screen", 110), ("vstim", 102), ("wheel", 103)],
                  [("vstim", 105), ("screen", 110), ("wheel", 103)]],
                 [["stim comment", "rig comment"], ["github comment", "rig comment"]]))
    ∧ read_data adapterA adapterB stitch0 extrap0 dp1 =
      .ok (some ([[("screen", 110), ("vstim", 102), ("wheel", 103)]],
                 [["stim comment", "rig comment"]])) := by
  constructor
  · rw [(read_data_list_shaped adapterA adapterB stitch0 extrap0 dp2).1 (by decide)]
    rfl
  · rw [(read_data_list_shaped adapterA adapterB stitch0 extrap0 dp1).2.1 (by decide)]
    rfl

/-- C9: on any platform other than `darwin` and `win32`, `create_epoch` is
never assigned, so `set_date` hits an unbound local (NameError) for every
meta whose protocol file is set and whose date token is valid; consequently
`init_from_prot` (modelled from its identity-derivation tail onward) can
never complete on such platforms — the NameError propagates out. -/
theorem set_date_non_mac_win_name_error (platform : String) (bt ct : Nat)
    (sheet : Except Unit (Option GRow)) (skip_google : Bool) (m : SessionMeta)
    (prot_file session_dir animalid date_tok : String)
    (hp : platform ≠ "darwin") (hw : platform ≠ "win32")
    (hm : m.prot_file = some prot_file)
    (hs : py_index (py_split prot_file '/') (-2) = some session_dir)
    (ha : (py_split session_dir '_').get? 1 = some animalid)
    (hdt : date_tok = (py_split ((py_split session_dir '/').getLastD "") '_').headD "")
    (hd : (parse_yymmdd date_tok).isSome) :
    (∀ m' : SessionMeta, m'.prot_file.isSome →
      set_date platform bt ct date_tok m' = .error .nameError)
    ∧ init_from_prot_tail platform bt ct sheet skip_google m = .error .nameError := by
  obtain ⟨d, hd'⟩ := Option.isSome_iff_exists.mp hd
  have hp' : (platform == "darwin") = false := by simpa using hp
  have hw' : (platform == "win32") = false := by simpa using hw
  have hsd : ∀ m' : SessionMeta, m'.prot_file.isSome →
      set_date platform bt ct date_tok m' = .error .nameError := by
    intro m' hm'
    obtain ⟨pf, hpf⟩ := Option.isSome_iff_exists.mp hm'
    simp [set_date, hd', hpf, hp', hw']
  refine ⟨hsd, ?_⟩
  simp only [init_from_prot_tail, hm, hs, ha, ← hdt]
  rw [hsd _ (by simp [hm])]

/-- C5: with path lists of unequal length, `read_combine_logs` fails with
the length-assertion error. The conclusion holds for every adapter and
stitcher, so no log file is consulted and no partial result is produced. -/
theorem read_combine_logs_length_mismatch {α : Type} (pS pG : LogAdapter α)
    (st : Bool → List (LogData α) → LogData α) (sps rps : List String)
    (h : sps.length ≠ rps.length) :
    read_combine_logs pS pG st (.list sps) (.list rps) =
      .error (.assertionError
        ("The number stimlog files need to be equal to amount of riglog files "
          ++ toString sps.length ++ "=/=" ++ toString rps.length)) := by
  have h' : (sps.length == rps.length) = false := by simpa using h
  simp [read_combine_logs, h']

/-- C5 (witness): one stimlog path against zero riglog paths. -/
theorem read_combine_logs_length_mismatch_witness :
    read_combine_logs adapterA adapterB stitch0 (.list ["s_good"]) (.list []) =
      .error (.assertionError
        ("The number stimlog files need to be equal to amount of riglog files "
          ++ toString (1 : Nat) ++ "=/=" ++ toString (0 : Nat))) :=
  read_combine_logs_length_mismatch adapterA adapterB stitch0 ["s_good"] [] (by decide)

/-- C4: the stimlog is parsed by trying the primary adapter and falling back
to the secondary on any failure; the riglog is always parsed with the
primary (stable) adapter alone — even when the secondary would succeed on
it; and when both stimlog adapters fail the second failure propagates.
The last conjunct shows the same for a run inside the list branch. -/
theorem read_combine_logs_fallback {α : Type} (pS pG : LogAdapter α)
    (st : Bool → List (LogData α) → LogData α) (sp rp : String) :
    (∀ sd sc rd rc, pS (.scalar sp) = .ok (sd, sc) → pS (.scalar rp) = .ok (rd, rc) →
      read_combine_logs pS pG st (.scalar sp) (.scalar rp) = .ok (dictUnion sd rd, sc ++ rc))
    ∧ (∀ e sd sc rd rc, pS (.scalar sp) = .error e → pG (.scalar sp) = .ok (sd, sc) →
        pS (.scalar rp) = .ok (rd, rc) →
      read_combine_logs pS pG st (.scalar sp) (.scalar rp) = .ok (dictUnion sd rd, sc ++ rc))
    ∧ (∀ e e', pS (.scalar sp) = .error e → pG (.scalar sp) = .error e' →
      read_combine_logs pS pG st (.scalar sp) (.scalar rp) = .error e')
    ∧ (∀ e w sv, pS (.scalar rp) = .error e → pG (.scalar rp) = .ok w →
        pS (.scalar sp) = .ok sv →
      read_combine_logs pS pG st (.scalar sp) (.scalar rp) = .error e)
    ∧ (∀ s2 ss r2 rs e e', (s2 :: ss).length = (r2 :: rs).length →
        pS (.scalar s2) = .error e → pG (.scalar s2) = .error e' →
      read_combine_logs pS pG st (.list (s2 :: ss)) (.list (r2 :: rs)) = .error e') := by
  refine ⟨?_, ?_, ?_, ?_, ?_⟩
  · intro sd sc rd rc hS hR
    simp [read_combine_logs, combine_scalar, parse_with_fallback, hS, hR]
  · intro e sd sc rd rc hS hG hR
    simp [read_combine_logs, combine_scalar, parse_with_fallback, hS, hG, hR]
  · intro e e' hS hG
    simp [read_combine_logs, combine_scalar, parse_with_fallback, hS, hG]
  · intro e w sv hR hG hS
    simp [read_combine_logs, combine_scalar, parse_with_fallback, hS, hR]
  · intro s2 ss r2 rs e e' hlen hS hG
    have h' : ss.length = rs.length := by simpa using hlen
    simp [read_combine_logs, parse_pairs, parse_with_fallback, h', hS, hG]

/-- C4 (witness): all five conjuncts at the concrete adapters: primary
success, fallback success, double failure (fatal), a riglog the secondary
would accept still failing (no riglog fallback), and a double failure
inside the list branch. -/
theorem read_combine_logs_fallback_witness :
    (read_combine_logs adapterA adapterB stitch0 (.scalar "s_good") (.scalar "r_good") =
      .ok (dictUnion [("screen", 1), ("vstim", 2)] [("screen", 10), ("wheel", 3)],
           ["stim comment"] ++ ["rig comment"]))
    ∧ (read_combine_logs adapterA adapterB stitch0 (.scalar "s_github") (.scalar "r_good") =
      .ok (dictUnion [("vstim", 5)] [("screen", 10), ("wheel", 3)],
           ["github comment"] ++ ["rig comment"]))
    ∧ (read_combine_logs adapterA adapterB stitch0 (.scalar "nope") (.scalar "r_good") =
      .error (.logParseError "not github format"))
    ∧ (read_combine_logs adapterA adapterB stitch0 (.scalar "s_good") (.scalar "s_github") =
      .error (.logParseError "not stimpy format"))
    ∧ (read_combine_logs adapterA adapterB stitch0 (.list ["nope", "x"]) (.list ["r_good", "y"]) =
      .error (.logParseError "not github format")) :=
  ⟨(read_combine_logs_fallback adapterA adapterB stitch0 "s_good" "r_good").1
      _ _ _ _ rfl rfl,
   (read_combine_logs_fallback adapterA adapterB stitch0 "s_github" "r_good").2.1
      _ _ _ _ _ rfl rfl rfl,
   (read_combine_logs_fallback adapterA adapterB stitch0 "nope" "r_good").2.2.1
      _ _ rfl rfl,
   (read_combine_logs_fallback adapterA adapterB stitch0 "s_good" "s_github").2.2.2.1
      _ _ _ rfl rfl rfl,
   (read_combine_logs_fallback adapterA adapterB stitch0 "s_good" "r_good").2.2.2.2
      "nope" ["x"] "r_good" ["y"] _ _ rfl rfl rfl⟩

/-- C9 (witness): on `linux`, initializing from a well-formed protocol-file
path fails with a NameError. -/
theorem set_date_non_mac_win_name_error_witness :
    init_from_prot_tail "linux" 43200 0 (.ok none) true
      { prot_file := some "presentation/230615_KC045_detect_AB/detect_level3.txt" } =
      .error .nameError :=
  (set_date_non_mac_win_name_error "linux" 43200 0 (.ok none) true _
    "presentation/230615_KC045_detect_AB/detect_level3.txt" "230615_KC045_detect_AB"
    "KC045" "230615" (by decide) (by decide) rfl rfl rfl rfl (by rfl)).2

/-- The running conjunction of the `isSaved` loop is the conjunction of the
per-file existence checks. -/
theorem isSaved_loop_fst (fs : List String) (sp : String) (l : List String) :
    (isSaved_loop fs sp l).1 = l.all (fs.contains ·) := by
  induction l with
  | nil => rfl
  | cons r rest ih => simp [isSaved_loop, ih]

/-- Every missing file makes the loop emit the (file-agnostic) missing-data
message. -/
theorem isSaved_loop_mem (fs : List String) (sp : String) (l : List String)
    (r : String) (hr : r ∈ l) (hf : fs.contains r = false) :
    (sp ++ " exists but no data file is present...") ∈ (isSaved_loop fs sp l).2 := by
  induction l with
  | nil => cases hr
  | cons x rest ih =>
    have hcons : (isSaved_loop fs sp (x :: rest)).2 =
        (if fs.contains x then "Found saved data: " ++ x
         else sp ++ " exists but no data file is present...") ::
          (isSaved_loop fs sp rest).2 := rfl
    rw [hcons]
    rcases List.mem_cons.mp hr with h | h
    · subst h
      rw [if_neg (by simpa using hf)]
      exact List.mem_cons_self _ _
    · exact List.mem_cons_of_mem _ (ih h)

/-- C8 (counterexample): with only the save directory on disk, the
diagnostics for a missing `runA.parquet` and for a missing `runB.parquet`
are the identical string naming only the save path — `isSaved` does not log
which specific file is missing. -/
theorem isSaved_log_not_specific :
    isSaved ["savedir"]
        { runPaths := [], stimlog := .scalar "", riglog := .scalar "",
          savePath := "savedir", dataPaths := ["runA.parquet"] } =
      (false, ["savedir exists but no data file is present..."])
    ∧ isSaved ["savedir"]
        { runPaths := [], stimlog := .scalar "", riglog := .scalar "",
          savePath := "savedir", dataPaths := ["runB.parquet"] } =
      (false, ["savedir exists but no data file is present..."]) :=
  ⟨rfl, rfl⟩

/-- C8 (amended): `isSaved` returns true iff the save path exists and every
expected data file exists — false as soon as one file is absent — and for
each missing file it emits a diagnostic that names the save directory (the
message does not identify the missing file itself). -/
theorem isSaved_amended (fs : List String) (dp : DataPaths) :
    ((isSaved fs dp).1 = true ↔
      fs.contains dp.savePath = true ∧ ∀ r ∈ dp.dataPaths, fs.contains r = true)
    ∧ (fs.contains dp.savePath = true →
        ∀ r ∈ dp.dataPaths, fs.contains r = false →
          (dp.savePath ++ " exists but no data file is present...") ∈ (isSaved fs dp).2) := by
  by_cases hsp : fs.contains dp.savePath = true
  · have hsp' : dp.savePath ∈ fs := by simpa using hsp
    constructor
    · rw [isSaved, if_pos hsp, isSaved_loop_fst]
      simp [List.all_eq_true, hsp']
    · intro _ r hr hf
      rw [isSaved, if_pos hsp]
      exact isSaved_loop_mem fs dp.savePath dp.dataPaths r hr hf
  · have hsp' : dp.savePath ∉ fs := by simpa using hsp
    constructor
    · rw [isSaved, if_neg hsp]
      simp [hsp']
    · intro h
      exact absurd h hsp

/-- C8 (witness): both parts of the amended claim at concrete states. -/
theorem isSaved_amended_witness :
    (isSaved ["savedir", "runA.parquet"]
        { runPaths := [], stimlog := .scalar "", riglog := .scalar "",
          savePath := "savedir", dataPaths := ["runA.parquet"] }).1 = true
    ∧ ("savedir" ++ " exists but no data file is present...") ∈
        (isSaved ["savedir"]
          { runPaths := [], stimlog := .scalar "", riglog := .scalar "",
            savePath := "savedir", dataPaths := ["runA.parquet"] }).2 :=
  ⟨(isSaved_amended _ _).1.mpr ⟨rfl, by decide⟩,
   (isSaved_amended _ _).2 rfl "runA.parquet" (by decide) (by decide)⟩

/-- A payload carrying the session id satisfies the session-id filter. -/
theorem row_matches_of_lookup (r : Row) (k : String) (v : PyVal)
    (h : dictLookup r k = some v) : row_matches r [(k, v)] = true := by
  simp [row_matches, h]

/-- A patched row still satisfies a single-column filter the patch itself
satisfies. -/
theorem row_matches_update (r patch : Row) (k : String) (v : PyVal)
    (hp : dictLookup patch k = some v) :
    row_matches (dictUnion r patch) [(k, v)] = true := by
  have h := dictUnion_lookup r patch k
  rw [hp] at h
  simp [row_matches, h, overlay_get]

/-- When no row matches, the filtered table is empty. -/
theorem db_get_entries_eq_nil (t : List Row) (f : Row)
    (h : db_row_exists t f = false) : db_get_entries t f = [] := by
  rw [db_get_entries, List.filter_eq_nil_iff]
  intro a ha hm
  rw [db_row_exists] at h
  have h2 : t.any (row_matches · f) = true := List.any_eq_true.mpr ⟨a, ha, hm⟩
  rw [h] at h2
  exact Bool.noConfusion h2

/-- Lemma: `update_entry` with a single-column filter whose value the patch carries
maps exactly the matching rows and leaves filtering stable. -/
theorem db_get_entries_update (t : List Row) (k : String) (v : PyVal) (patch : Row)
    (hp : dictLookup patch k = some v) :
    db_get_entries (db_update_entry t [(k, v)] patch) [(k, v)] =
      (db_get_entries t [(k, v)]).map (fun r => dictUnion r patch) := by
  induction t with
  | nil => rfl
  | cons r rest ih =>
    cases hm : row_matches r [(k, v)]
    · simpa [db_update_entry, db_get_entries, List.filter_cons, hm] using ih
    · simpa [db_update_entry, db_get_entries, List.filter_cons, hm,
        row_matches_update r patch k v hp] using ih

/-- C3: starting from any database state with no row for this session id
and a session whose counter attribute is set, `save_to_db` with payloads
that carry the session id inserts once and updates the animal counter; a
second call with a different payload succeeds, rewrites the row in place,
adds no second row (table grows by exactly one across both calls), and
leaves exactly one row for the id, carrying the second call's values. -/
theorem save_to_db_upsert (s : SessionState) (db : DataBase) (d1 d2 : Row) (n : Int)
    (hn : s.current_session_no = some n)
    (h1 : dictLookup d1 "sessionId" = some (.str s.session_id))
    (h2 : dictLookup d2 "sessionId" = some (.str s.session_id))
    (h0 : db_row_exists db.sessions [("sessionId", .str s.session_id)] = false) :
    (save_to_db s db d1).1 = .ok ()
    ∧ (save_to_db s db d1).2.sessions = db.sessions ++ [d1]
    ∧ (save_to_db s db d1).2.animals =
        db_update_entry db.animals [("id", .str s.animalid)] [("nSessions", .num n)]
    ∧ (save_to_db s (save_to_db s db d1).2 d2).1 = .ok ()
    ∧ (save_to_db s (save_to_db s db d1).2 d2).2.sessions =
        db_update_entry (db.sessions ++ [d1]) [("sessionId", .str s.session_id)] d2
    ∧ (save_to_db s (save_to_db s db d1).2 d2).2.sessions.length = db.sessions.length + 1
    ∧ db_get_entries (save_to_db s (save_to_db s db d1).2 d2).2.sessions
        [("sessionId", .str s.session_id)] = [dictUnion d1 d2]
    ∧ (∀ k v, dictLookup d2 k = some v → dictLookup (dictUnion d1 d2) k = some v) := by
  have hm1 : row_matches d1 [("sessionId", .str s.session_id)] = true :=
    row_matches_of_lookup _ _ _ h1
  have call1 : save_to_db s db d1 =
      (.ok (), { sessions := db.sessions ++ [d1],
                 animals := db_update_entry db.animals
                   [("id", .str s.animalid)] [("nSessions", .num n)] }) := by
    simp [save_to_db, h0, hn, db_add_entry]
  have hex : db_row_exists (db.sessions ++ [d1]) [("sessionId", .str s.session_id)] = true := by
    simp [db_row_exists, hm1]
  have call2 : save_to_db s
      (⟨db.sessions ++ [d1], db_update_entry db.animals
        [("id", .str s.animalid)] [("nSessions", .num n)]⟩ : DataBase) d2 =
      (.ok (), { sessions := db_update_entry (db.sessions ++ [d1])
                   [("sessionId", .str s.session_id)] d2,
                 animals := db_update_entry db.animals
                   [("id", .str s.animalid)] [("nSessions", .num n)] }) := by
    simp [save_to_db, hex]
  refine ⟨by simp only [call1], by simp only [call1], by simp only [call1],
    ?_, ?_, ?_, ?_, ?_⟩
  · simp only [call1, call2]
  · simp only [call1, call2]
  · simp only [call1, call2]
    simp [db_update_entry]
  · simp only [call1, call2]
    rw [db_get_entries_update _ _ _ _ h2]
    rw [db_get_entries, List.filter_append]
    rw [show List.filter (row_matches · [("sessionId", PyVal.str s.session_id)]) db.sessions
          = db_get_entries db.sessions [("sessionId", .str s.session_id)] from rfl]
    rw [db_get_entries_eq_nil _ _ h0]
    simp [hm1]
  · intro k v hv
    have h := dictUnion_lookup d1 d2 k
    rw [hv] at h
    simpa [overlay_get] using h

/-- C3 (witness): two calls at a concrete session, database and payloads. -/
theorem save_to_db_upsert_witness :
    (save_to_db sess0 db0 payload1).1 = .ok ()
    ∧ db_get_entries (save_to_db sess0 (save_to_db sess0 db0 payload1).2 payload2).2.sessions
        [("sessionId", .str "2306151200045")] = [dictUnion payload1 payload2] :=
  ⟨(save_to_db_upsert sess0 db0 payload1 payload2 5 rfl rfl rfl rfl).1,
   (save_to_db_upsert sess0 db0 payload1 payload2 5 rfl rfl rfl rfl).2.2.2.2.2.2.1⟩

/-- C10: when the session's `current_session_no` attribute was never
assigned (as in the source: `overall_session_no` computes and returns the
number without storing it, and no `Session` method assigns the attribute),
the fresh-insert branch of `save_to_db` raises an AttributeError — after
the sessions-table insert has already happened. -/
theorem save_to_db_attribute_error (s : SessionState) (db : DataBase) (d : Row)
    (hn : s.current_session_no = none)
    (h0 : db_row_exists db.sessions [("sessionId", .str s.session_id)] = false) :
    (save_to_db s db d).1 = .error .attributeError
    ∧ (save_to_db s db d).2.sessions = db.sessions ++ [d] := by
  simp [save_to_db, h0, hn, db_add_entry]

/-- C10 (witness): a concrete fresh session with the attribute unset. -/
theorem save_to_db_attribute_error_witness :
    (save_to_db sessUnset db0 payload1).1 = .error .attributeError :=
  (save_to_db_attribute_error sessUnset db0 payload1 rfl rfl).1

end VisualPerception
